import Mathlib

/-!
Shallow embedding of the go-generator-lib render pipeline
(src/internal/implementation/implementation.go).

External collaborators (directory readers/writers, the text/template +
sprig engine, the templatewrapper unit) are modelled as an `Env` of
oracle functions, exactly at the interface the implementation calls
them.  Go's `map[string]interface{}` is modelled as an association list
`List (String × Option Value)` where an entry `(k, none)` is a key
stored with a nil value; a plain Go fetch `m[k]` (which yields nil both
for a missing key and for a stored nil) is `goGet`, and the comma-ok
fetch is `lookupP`.  Go's `regexp.MatchString` (stdlib, documented to
report whether the string CONTAINS any match of the pattern) is modelled
concretely for a fragment of the syntax (literals, escapes, `.`,
classes, grouping, alternation, `*` `+` `?`); anchors and counted
repetition are outside the modelled fragment.
-/

namespace GeneratorLib

/-- Dynamic values carried in parameter maps (Go `interface{}` minus nil;
nil is represented by `Option.none` at the use sites). -/
inductive Value where
  | str : String → Value
  | int : Int → Value
  | bool : Bool → Value
  | list : List Value → Value
  | vmap : List (Value × Value) → Value

/-- A single-quote character as a string (used in the Go error texts). -/
def sq : String := "\x27"

mutual

/-- Go `fmt.Sprintf("%v", v)`: the canonical scalar-to-string conversion
used before pattern validation. -/
def sprintfV : Value → String
  | .str s => s
  | .int n => toString n
  | .bool b => if b then "true" else "false"
  | .list vs => "[" ++ sprintfVList vs ++ "]"
  | .vmap kvs => "map[" ++ sprintfVMap kvs ++ "]"

def sprintfVList : List Value → String
  | [] => ""
  | [v] => sprintfV v
  | v :: rest => sprintfV v ++ " " ++ sprintfVList rest

def sprintfVMap : List (Value × Value) → String
  | [] => ""
  | [(k, v)] => sprintfV k ++ ":" ++ sprintfV v
  | (k, v) :: rest => sprintfV k ++ ":" ++ sprintfV v ++ " " ++ sprintfVMap rest

end

/-- Regular expressions: the fragment of Go regexp syntax that the model
interprets. -/
inductive Regex where
  | emp : Regex
  | eps : Regex
  | chr : Char → Regex
  | dot : Regex
  | cls : Bool → List Char → Regex
  | cat : Regex → Regex → Regex
  | alt : Regex → Regex → Regex
  | star : Regex → Regex

/-- Whether the regex accepts the empty word. -/
def rnull : Regex → Bool
  | .emp => false
  | .eps => true
  | .chr _ => false
  | .dot => false
  | .cls _ _ => false
  | .cat a b => rnull a && rnull b
  | .alt a b => rnull a || rnull b
  | .star _ => true

/-- Brzozowski derivative by one character. -/
def rderiv (c : Char) : Regex → Regex
  | .emp => .emp
  | .eps => .emp
  | .chr d => if c = d then .eps else .emp
  | .dot => .eps
  | .cls neg cs => if cs.contains c != neg then .eps else .emp
  | .cat a b => if rnull a then .alt (.cat (rderiv c a) b) (rderiv c b) else .cat (rderiv c a) b
  | .alt a b => .alt (rderiv c a) (rderiv c b)
  | .star a => .cat (rderiv c a) (.star a)

/-- Whole-word (fully anchored) match. -/
def rmatch (r : Regex) : List Char → Bool
  | [] => rnull r
  | c :: cs => rmatch (rderiv c r) cs

/-- Some prefix of the word matches. -/
def rmatchPfx (r : Regex) : List Char → Bool
  | [] => rnull r
  | c :: cs => rnull r || rmatchPfx (rderiv c r) cs

/-- Some substring of the word matches: the semantics of Go
`regexp.MatchString` / `Regexp.MatchString`, which are documented as
"reports whether the string contains any match". -/
def rmatchSub (r : Regex) : List Char → Bool
  | [] => rnull r
  | c :: cs => rmatchPfx r (c :: cs) || rmatchSub r cs

/-- Collect the member characters of a bracket class, after `[`.
Character ranges and escapes are outside the modelled fragment (Go would
interpret them; refusing them keeps the model honest on its fragment). -/
def parseClsChars : List Char → Except String (List Char × List Char)
  | [] => .error "missing closing ]"
  | ']' :: rest => pure ([], rest)
  | '-' :: _ => .error "character range outside modelled fragment"
  | '\\' :: _ => .error "class escape outside modelled fragment"
  | c :: rest => do
    let (l, r) ← parseClsChars rest
    pure (c :: l, r)

/-- Parse a bracket character class, after `[`. -/
def parseCls (cs : List Char) : Except String (Regex × List Char) :=
  match cs with
  | '^' :: rest => do
    let (l, r) ← parseClsChars rest
    pure (.cls true l, r)
  | _ => do
    let (l, r) ← parseClsChars cs
    pure (.cls false l, r)

mutual

/-- Parse an alternation (`a|b|c`). Fuel-bounded recursive descent. -/
def parseAlt : Nat → List Char → Except String (Regex × List Char)
  | 0, _ => .error "pattern too complex for model"
  | fuel + 1, cs => do
    let (r, rest) ← parseCc fuel cs
    match rest with
    | '|' :: rest2 => do
      let (r2, rest3) ← parseAlt fuel rest2
      pure (.alt r r2, rest3)
    | _ => pure (r, rest)

/-- Parse a concatenation of pieces. -/
def parseCc : Nat → List Char → Except String (Regex × List Char)
  | 0, _ => .error "pattern too complex for model"
  | fuel + 1, cs =>
    match cs with
    | [] => pure (.eps, [])
    | ')' :: _ => pure (.eps, cs)
    | '|' :: _ => pure (.eps, cs)
    | _ => do
      let (r, rest) ← parsePiece fuel cs
      let (r2, rest2) ← parseCc fuel rest
      pure (.cat r r2, rest2)

/-- Parse an atom with its repetition suffixes. -/
def parsePiece : Nat → List Char → Except String (Regex × List Char)
  | 0, _ => .error "pattern too complex for model"
  | fuel + 1, cs => do
    let (r, rest) ← parseAtom fuel cs
    parseReps fuel r rest

/-- Consume `*` / `+` / `?` suffixes. -/
def parseReps : Nat → Regex → List Char → Except String (Regex × List Char)
  | 0, _, _ => .error "pattern too complex for model"
  | fuel + 1, r, cs =>
    match cs with
    | '*' :: rest => parseReps fuel (.star r) rest
    | '+' :: rest => parseReps fuel (.cat r (.star r)) rest
    | '?' :: rest => parseReps fuel (.alt r .eps) rest
    | _ => pure (r, cs)

/-- Parse one atom. -/
def parseAtom : Nat → List Char → Except String (Regex × List Char)
  | 0, _ => .error "pattern too complex for model"
  | fuel + 1, cs =>
    match cs with
    | [] => .error "missing argument to repetition operator"
    | '(' :: rest => do
      let (r, rest2) ← parseAlt fuel rest
      match rest2 with
      | ')' :: rest3 => pure (r, rest3)
      | _ => .error "missing closing )"
    | '[' :: rest => parseCls rest
    | '.' :: rest => pure (.dot, rest)
    | '\\' :: [] => .error "trailing backslash at end of expression"
    | '\\' :: c :: rest => pure (.chr c, rest)
    | '*' :: _ => .error "missing argument to repetition operator"
    | '+' :: _ => .error "missing argument to repetition operator"
    | '?' :: _ => .error "missing argument to repetition operator"
    | ')' :: _ => .error "unexpected )"
    | '^' :: _ => .error "anchor outside modelled fragment"
    | '$' :: _ => .error "anchor outside modelled fragment"
    | '{' :: _ => .error "counted repetition outside modelled fragment"
    | c :: rest => pure (.chr c, rest)

end

/-- Compile a pattern string (model of `regexp.Compile` on the supported
fragment). -/
def parseRegexp (pattern : String) : Except String Regex := do
  let cs := pattern.toList
  let (r, rest) ← parseAlt (2 * cs.length + 16) cs
  match rest with
  | [] => pure r
  | _ => .error "unexpected )"

/-- Model of Go `regexp.MatchString(pattern, s)`: compile, then report
whether `s` CONTAINS a match (unanchored substring search). -/
def goMatchString (pattern s : String) : Except String Bool := do
  let r ← parseRegexp pattern
  pure (rmatchSub r s.toList)

/-! ## The api data model (api/apimodel.go as used by implementation.go) -/

/-- Go `map[string]interface{}`: association list where `(k, none)` is a
key stored with a nil value. -/
abbrev ParamMap := List (String × Option Value)

/-- api.VariableSpec. -/
structure VariableSpec where
  description : String
  defaultValue : Option Value
  validationPattern : String

/-- api.TemplateSpec. -/
structure TemplateSpec where
  relativeSourcePath : String
  relativeTargetPath : String
  condition : String
  justCopy : Bool
  withItems : List Value

/-- api.GeneratorSpec. `vars` models the Go map field `Variables`
(`variables` is reserved in Lean): unique keys, iteration order
unspecified in Go; the model fixes the list order. -/
structure GeneratorSpec where
  templates : List TemplateSpec
  vars : List (String × VariableSpec)

/-- api.RenderSpec. -/
structure RenderSpec where
  generatorName : String
  parameters : ParamMap

/-- api.Request (directory paths are consumed by the collaborators the
`Env` already closes over). -/
structure Request where
  sourceBaseDir : String
  targetBaseDir : String
  renderSpecFile : String

/-- api.FileResult (errors as their message strings). -/
structure FileResult where
  success : Bool
  relativeFilePath : String
  errors : List String
deriving DecidableEq

/-- api.Response. -/
structure Response where
  success : Bool
  renderedFiles : List FileResult
  errors : List String
deriving DecidableEq

/-- internal templatewrapper: templatewrapper.New(justCopy, contents,
name, sourcePath). -/
structure TemplateWrapper where
  justCopy : Bool
  contents : String
  templateName : String
  relativeSourcePath : String

/-- The external collaborators, at exactly the interface the
implementation calls: directory readers/writers and the text/template +
sprig engine (renderString merges Parse and ExecuteTemplate, whose
failures the implementation treats identically). -/
structure Env where
  obtainGeneratorSpec : String → Except String GeneratorSpec
  obtainRenderSpec : String → Except String RenderSpec
  writeRenderSpec : RenderSpec → String → Except String String
  readFile : String → Except String String
  writeFile : String → String → Except String Unit
  renderString : String → String → List (String × Value) → Except String String
  parseTemplate : TemplateWrapper → Except String Unit
  writeTemplate : TemplateWrapper → String → List (String × Value) → Except String String

/-! ## Map helpers (Go map semantics) -/

/-- Comma-ok fetch `v, ok := m[k]`. -/
def lookupP : ParamMap → String → Option (Option Value)
  | [], _ => none
  | (k', v) :: rest, k => if k' = k then some v else lookupP rest k

/-- Plain fetch `m[k]`: nil both for a missing key and for a stored nil. -/
def goGet (m : ParamMap) (k : String) : Option Value :=
  (lookupP m k).join

/-- Fetch in a nil-free map (the validated parameter map). -/
def lookupV : List (String × Value) → String → Option Value
  | [], _ => none
  | (k', v) :: rest, k => if k' = k then some v else lookupV rest k

/-- Fetch in the generator spec's variable map. -/
def lookupVar : List (String × VariableSpec) → String → Option VariableSpec
  | [], _ => none
  | (k', v) :: rest, k => if k' = k then some v else lookupVar rest k

/-- Go map store `m[k] = v` on a nil-free map. -/
def setParam : List (String × Value) → String → Value → List (String × Value)
  | [], k, v => [(k, v)]
  | (k', v') :: rest, k, v =>
    if k' = k then (k, v) :: rest else (k', v') :: setParam rest k v

/-! ## Response helpers (implementation.go lines 303-337) -/

def errorResponseToplevel (e : String) : Response :=
  { success := false, renderedFiles := [], errors := [e] }

def successResponse (renderedFiles : List FileResult) : Response :=
  { success := true, renderedFiles := renderedFiles, errors := [] }

def errorResponseRender (renderedFiles : List FileResult) : Response :=
  { success := false, renderedFiles := renderedFiles
    errors := ["an error occurred during rendering, see individual files"] }

def successFileResult (relativeFilePath : String) : FileResult :=
  { success := true, relativeFilePath := relativeFilePath, errors := [] }

def errorFileResult (relativeFilePath : String) (e : String) : FileResult :=
  { success := false, relativeFilePath := relativeFilePath, errors := [e] }

/-! ## Parameter resolution (implementation.go lines 121-198) -/

/-- renderStringDefaultFromTemplate: render a string default as a
standalone template against an empty parameter map; parse and execution
failures carry the same message shape in the source. -/
def renderStringDefaultFromTemplate (env : Env) (variableName defaultStr : String) :
    Except String Value :=
  match env.renderString ("__defaultvalue_" ++ variableName) defaultStr [] with
  | .error e =>
    .error ("variable declaration " ++ variableName ++
      " has invalid default (this is an error in the generator spec): " ++ e)
  | .ok s => .ok (Value.str s)

/-- Loop body of constructRenderSpecWithValuesOrDefaults for one declared
variable (lines 126-145). -/
def fallbackVarValue (env : Env) (parameters : ParamMap) (nilDefault : Option Value)
    (k : String) (vs : VariableSpec) : Except String (Option Value) :=
  match goGet parameters k with
  | some v => .ok (some v)
  | none =>
    match vs.defaultValue with
    | none => .ok nilDefault
    | some (Value.str ds) => (renderStringDefaultFromTemplate env k ds).map some
    | some dv => .ok (some dv)

/-- The loop of constructRenderSpecWithValuesOrDefaults over the declared
variables, in map-iteration order. -/
def fallbackParams (env : Env) (parameters : ParamMap) (nilDefault : Option Value) :
    List (String × VariableSpec) → Except String ParamMap
  | [] => .ok []
  | (k, vs) :: rest =>
    match fallbackVarValue env parameters nilDefault k vs with
    | .error e => .error e
    | .ok v =>
      match fallbackParams env parameters nilDefault rest with
      | .error e => .error e
      | .ok m => .ok ((k, v) :: m)

/-- constructRenderSpecWithValuesOrDefaults (lines 121-147). -/
def constructRenderSpecWithValuesOrDefaults (env : Env) (generatorName : String)
    (genSpec : GeneratorSpec) (parameters : ParamMap) (nilDefault : Option Value) :
    Except String RenderSpec :=
  (fallbackParams env parameters nilDefault genSpec.vars).map
    (fun ps => { generatorName := generatorName, parameters := ps })

/-- Value resolution inside the constructAndValidateParameterMap loop
(lines 169-181): take the render-spec entry when the key is present
(comma-ok fetch), else compute the default (string defaults rendered,
anything else — including a nil default — passed through). -/
def resolveVarValue (env : Env) (rspec : RenderSpec) (varName : String)
    (varSpec : VariableSpec) : Except String (Option Value) :=
  match lookupP rspec.parameters varName with
  | some v => .ok v
  | none =>
    match varSpec.defaultValue with
    | some (Value.str ds) => (renderStringDefaultFromTemplate env varName ds).map some
    | d => .ok d

/-- Loop body of constructAndValidateParameterMap for one declared
variable (lines 168-196). -/
def resolveAndValidateVar (env : Env) (rspec : RenderSpec) (varName : String)
    (varSpec : VariableSpec) : Except String Value :=
  match resolveVarValue env rspec varName varSpec with
  | .error e => .error e
  | .ok none => .error ("parameter " ++ sq ++ varName ++ sq ++ " is required but missing")
  | .ok (some v) =>
    if varSpec.validationPattern = "" then .ok v
    else
      match goMatchString varSpec.validationPattern (sprintfV v) with
      | .error e =>
        .error ("variable declaration " ++ varName ++
          " has invalid pattern (this is an error in the generator spec, not the render request): " ++ e)
      | .ok true => .ok v
      | .ok false =>
        .error ("value for parameter " ++ sq ++ varName ++ sq ++
          " does not match pattern " ++ varSpec.validationPattern)

/-- The loop of constructAndValidateParameterMap over the declared
variables. -/
def validateVars (env : Env) (rspec : RenderSpec) :
    List (String × VariableSpec) → Except String (List (String × Value))
  | [] => .ok []
  | (n, vs) :: rest =>
    match resolveAndValidateVar env rspec n vs with
    | .error e => .error e
    | .ok v =>
      match validateVars env rspec rest with
      | .error e => .error e
      | .ok m => .ok ((n, v) :: m)

/-- constructAndValidateParameterMap (lines 166-198). -/
def constructAndValidateParameterMap (env : Env) (genSpec : GeneratorSpec)
    (rspec : RenderSpec) : Except String (List (String × Value)) :=
  validateVars env rspec genSpec.vars

/-! ## Rendering (implementation.go lines 200-299) -/

/-- evaluateCondition (lines 262-271). -/
def evaluateCondition (env : Env) (condition : String)
    (parameters : List (String × Value)) (templateName : String) : Except String Bool :=
  if condition = "" then .ok true
  else
    match env.renderString templateName condition parameters with
    | .error e => .error e
    | .ok rendered =>
      .ok (!(rendered == "false" || rendered == "0" || rendered == "no" || rendered == "skip"))

/-- renderAndWriteFile (lines 273-283). -/
def renderAndWriteFile (env : Env) (parameters : List (String × Value))
    (tmplw : TemplateWrapper) (templateName targetPath : String) : Except String Unit :=
  match env.writeTemplate tmplw templateName parameters with
  | .error e => .error e
  | .ok body => env.writeFile targetPath body

/-- renderSingleTemplateIteration (lines 238-260).  On a target-path
rendering failure Go's renderString has returned the empty string, so
the FileResult records path "". -/
def renderSingleTemplateIteration (env : Env) (tplSpec : TemplateSpec)
    (parameters : List (String × Value)) (templateName templateNameExtension
    errorMessageItemExtension : String) (renderedFiles : List FileResult)
    (allSuccessful : Bool) (tmplw : TemplateWrapper) : List FileResult × Bool :=
  match env.renderString (templateName ++ "_path" ++ templateNameExtension)
      tplSpec.relativeTargetPath parameters with
  | .error e =>
    (renderedFiles ++ [errorFileResult "" ("error evaluating target path from " ++ sq ++
      tplSpec.relativeTargetPath ++ sq ++ errorMessageItemExtension ++ ": " ++ e)], false)
  | .ok targetPath =>
    match evaluateCondition env tplSpec.condition parameters
        (templateName ++ "_condition" ++ templateNameExtension) with
    | .error e =>
      (renderedFiles ++ [errorFileResult targetPath ("error evaluating condition from " ++ sq ++
        tplSpec.condition ++ sq ++ errorMessageItemExtension ++ ": " ++ e)], false)
    | .ok false => (renderedFiles, allSuccessful)
    | .ok true =>
      match renderAndWriteFile env parameters tmplw templateName targetPath with
      | .error e =>
        (renderedFiles ++ [errorFileResult targetPath ("error evaluating template for target " ++
          sq ++ targetPath ++ sq ++ errorMessageItemExtension ++ ": " ++ e)], false)
      | .ok _ => (renderedFiles ++ [successFileResult targetPath], allSuccessful)

/-- The with-items loop of renderSingleTemplate (lines 226-230): the
shared parameter map receives `item` by in-place store, and the final
map (with the last item still present) is what later template units
see. -/
def withItemsLoop (env : Env) (tplSpec : TemplateSpec) (tmplw : TemplateWrapper)
    (templateName : String) : Nat → List Value → List (String × Value) →
    List FileResult → Bool → List (String × Value) × List FileResult × Bool
  | _, [], parameters, renderedFiles, allSuccessful => (parameters, renderedFiles, allSuccessful)
  | counter, item :: rest, parameters, renderedFiles, allSuccessful =>
    let parameters' := setParam parameters "item" item
    let (renderedFiles', allSuccessful') := renderSingleTemplateIteration env tplSpec parameters'
      templateName ("_" ++ Nat.repr (counter + 1)) (" for item #" ++ Nat.repr (counter + 1))
      renderedFiles allSuccessful tmplw
    withItemsLoop env tplSpec tmplw templateName (counter + 1) rest parameters'
      renderedFiles' allSuccessful'

/-- renderSingleTemplate (lines 211-236).  The returned map is the Go
shared `parameters` map after the unit ran (mutation persists). -/
def renderSingleTemplate (env : Env) (tplSpec : TemplateSpec)
    (parameters : List (String × Value)) :
    List (String × Value) × List FileResult × Bool :=
  let templateName := tplSpec.relativeSourcePath.replace "/" "_"
  match env.readFile tplSpec.relativeSourcePath with
  | .error e =>
    (parameters, [errorFileResult tplSpec.relativeTargetPath
      ("failed to load template " ++ tplSpec.relativeSourcePath ++ ": " ++ e)], false)
  | .ok templateContents =>
    let tmplw : TemplateWrapper :=
      { justCopy := tplSpec.justCopy, contents := templateContents
        templateName := templateName, relativeSourcePath := tplSpec.relativeSourcePath }
    match env.parseTemplate tmplw with
    | .error e =>
      (parameters, [errorFileResult tplSpec.relativeTargetPath
        ("failed to parse template " ++ tplSpec.relativeSourcePath ++ ": " ++ e)], false)
    | .ok _ =>
      if 0 < tplSpec.withItems.length then
        withItemsLoop env tplSpec tmplw templateName 0 tplSpec.withItems parameters [] true
      else
        let (renderedFiles, allSuccessful) := renderSingleTemplateIteration env tplSpec parameters
          templateName "" "" [] true tmplw
        (parameters, renderedFiles, allSuccessful)

/-- The loop of renderAllTemplates (lines 203-207), threading the shared
parameter map across units. -/
def renderAllAux (env : Env) : List TemplateSpec → List (String × Value) →
    List FileResult → Bool → List FileResult × Bool
  | [], _, renderedFiles, allSuccessful => (renderedFiles, allSuccessful)
  | t :: rest, parameters, renderedFiles, allSuccessful =>
    let (parameters', fs, succ) := renderSingleTemplate env t parameters
    renderAllAux env rest parameters' (renderedFiles ++ fs) (allSuccessful && succ)

/-- renderAllTemplates (lines 200-209). -/
def renderAllTemplates (env : Env) (genSpec : GeneratorSpec)
    (parameters : List (String × Value)) : List FileResult × Bool :=
  renderAllAux env genSpec.templates parameters [] true

/-! ## Entry points (implementation.go lines 31-117) -/

/-- WriteRenderSpecWithDefaults (lines 31-55): nilDefault is the Go
string "", and no validation runs. -/
def WriteRenderSpecWithDefaults (env : Env) (request : Request)
    (generatorName : String) : Response :=
  match env.obtainGeneratorSpec generatorName with
  | .error e => errorResponseToplevel e
  | .ok genSpec =>
    match constructRenderSpecWithValuesOrDefaults env generatorName genSpec []
        (some (Value.str "")) with
    | .error e => errorResponseToplevel e
    | .ok renderSpec =>
      match env.writeRenderSpec renderSpec request.renderSpecFile with
      | .error e => errorResponseToplevel e
      | .ok targetFile => successResponse [successFileResult targetFile]

/-- The extraneous-parameter scan of WriteRenderSpecWithValues (lines
79-83), in map-iteration order. -/
def findExtraneous (vars : List (String × VariableSpec)) : ParamMap → Option String
  | [] => none
  | (k, _) :: rest =>
    if (lookupVar vars k).isSome then findExtraneous vars rest else some k

/-- WriteRenderSpecWithValues (lines 57-90): nilDefault is Go nil, then
constructAndValidateParameterMap runs, and only after that the
extraneous-parameter scan. -/
def WriteRenderSpecWithValues (env : Env) (request : Request)
    (generatorName : String) (parameters : ParamMap) : Response :=
  match env.obtainGeneratorSpec generatorName with
  | .error e => errorResponseToplevel e
  | .ok genSpec =>
    match constructRenderSpecWithValuesOrDefaults env generatorName genSpec parameters none with
    | .error e => errorResponseToplevel e
    | .ok renderSpec =>
      match constructAndValidateParameterMap env genSpec renderSpec with
      | .error e => errorResponseToplevel e
      | .ok _ =>
        match findExtraneous genSpec.vars parameters with
        | some k =>
          errorResponseToplevel ("parameter " ++ sq ++ k ++ sq ++
            " is not allowed according to generator spec")
        | none =>
          match env.writeRenderSpec renderSpec request.renderSpecFile with
          | .error e => errorResponseToplevel e
          | .ok targetFile => successResponse [successFileResult targetFile]

/-! ## Derived and specification-side definitions used by the theorems -/

/-- The generator spec with every validation pattern blanked (used to
state that write-defaults mode never consults patterns). -/
def erasePatterns (g : GeneratorSpec) : GeneratorSpec :=
  { templates := g.templates
    vars := g.vars.map (fun kv => (kv.1, { kv.2 with validationPattern := "" })) }

/-- Resolve-with-fallback for one variable, stated in the order of the
specification text (supplied verbatim; else string default rendered
standalone; else structured default verbatim; else nilDefault).  Used as
the comparison side of the refinement theorem for
constructRenderSpecWithValuesOrDefaults. -/
def specResolveWithFallbackVar (env : Env) (suppliedValues : ParamMap)
    (nilDefault : Option Value) (k : String) (vs : VariableSpec) :
    Except String (Option Value) :=
  match goGet suppliedValues k with
  | some v => .ok (some v)
  | none =>
    match vs.defaultValue with
    | some (Value.str ds) => (renderStringDefaultFromTemplate env k ds).map some
    | some dv => .ok (some dv)
    | none => .ok nilDefault

/-- Resolve-with-fallback over the declared variables, specification
side. -/
def specResolveVars (env : Env) (suppliedValues : ParamMap) (nilDefault : Option Value) :
    List (String × VariableSpec) → Except String ParamMap
  | [] => .ok []
  | (k, vs) :: rest =>
    match specResolveWithFallbackVar env suppliedValues nilDefault k vs with
    | .error e => .error e
    | .ok v =>
      match specResolveVars env suppliedValues nilDefault rest with
      | .error e => .error e
      | .ok m => .ok ((k, v) :: m)

/-- The single FileResult one with-items iteration emits when the unit's
condition is empty (derived from renderSingleTemplateIteration with the
condition branch resolved to true). -/
def iterFR (env : Env) (tplSpec : TemplateSpec) (tmplw : TemplateWrapper)
    (templateName ext eext : String) (parameters : List (String × Value)) : FileResult :=
  match env.renderString (templateName ++ "_path" ++ ext)
      tplSpec.relativeTargetPath parameters with
  | .error e =>
    errorFileResult "" ("error evaluating target path from " ++ sq ++
      tplSpec.relativeTargetPath ++ sq ++ eext ++ ": " ++ e)
  | .ok tp =>
    match renderAndWriteFile env parameters tmplw templateName tp with
    | .error e =>
      errorFileResult tp ("error evaluating template for target " ++ sq ++ tp ++ sq ++
        eext ++ ": " ++ e)
    | .ok _ => successFileResult tp

/-- Render (lines 92-117). -/
def Render (env : Env) (request : Request) : Response :=
  match env.obtainRenderSpec request.renderSpecFile with
  | .error e => errorResponseToplevel e
  | .ok renderSpec =>
    match env.obtainGeneratorSpec renderSpec.generatorName with
    | .error e => errorResponseToplevel e
    | .ok genSpec =>
      match constructAndValidateParameterMap env genSpec renderSpec with
      | .error e => errorResponseToplevel e
      | .ok parameters =>
        let (renderedFiles, allSuccessful) := renderAllTemplates env genSpec parameters
        if allSuccessful then successResponse renderedFiles
        else errorResponseRender renderedFiles

/-! ## Concrete environments and fixtures for witnesses and
counterexamples.  `baseEnv.renderString` returns the template text
unchanged: the behaviour of a template with no directives. -/

def baseEnv : Env :=
  { obtainGeneratorSpec := fun _ => .error "no spec"
    obtainRenderSpec := fun _ => .error "no render spec"
    writeRenderSpec := fun _ _ => .ok "render-spec.yaml"
    readFile := fun _ => .ok ""
    writeFile := fun _ _ => .ok ()
    renderString := fun _ contents _ => .ok contents
    parseTemplate := fun _ => .ok ()
    writeTemplate := fun tw _ _ => .ok tw.contents }

def c2tpl : TemplateSpec :=
  { relativeSourcePath := "src.tmpl", relativeTargetPath := "p"
    condition := "skip", justCopy := false, withItems := [] }

def c2tmplw : TemplateWrapper :=
  { justCopy := false, contents := "", templateName := "t"
    relativeSourcePath := "src.tmpl" }

/-! ## Claims -/

/-- C2: condition evaluation during Render: an empty condition is true;
otherwise the condition is rendered and compared, case-sensitively, for
exact equality against "false", "0", "no", "skip" (a match gives false,
anything else true); a false condition skips the iteration with no
FileResult emitted at all, and a true condition renders and writes the
file, emitting exactly one FileResult. -/
theorem c2_condition_gate (env : Env) (params : List (String × Value)) (cn : String) :
    (evaluateCondition env "" params cn = .ok true)
    ∧ (∀ cond, cond ≠ "" → evaluateCondition env cond params cn =
        (env.renderString cn cond params).map
          (fun r => !(r == "false" || r == "0" || r == "no" || r == "skip")))
    ∧ (∀ (tplSpec : TemplateSpec) (tn ext eext : String) files ok tmplw tp,
        env.renderString (tn ++ "_path" ++ ext) tplSpec.relativeTargetPath params = .ok tp →
        evaluateCondition env tplSpec.condition params (tn ++ "_condition" ++ ext) = .ok false →
        renderSingleTemplateIteration env tplSpec params tn ext eext files ok tmplw
          = (files, ok))
    ∧ (∀ (tplSpec : TemplateSpec) (tn ext eext : String) files ok tmplw tp,
        env.renderString (tn ++ "_path" ++ ext) tplSpec.relativeTargetPath params = .ok tp →
        evaluateCondition env tplSpec.condition params (tn ++ "_condition" ++ ext) = .ok true →
        renderSingleTemplateIteration env tplSpec params tn ext eext files ok tmplw
          = (match renderAndWriteFile env params tmplw tn tp with
             | .error e =>
               (files ++ [errorFileResult tp ("error evaluating template for target " ++ sq ++
                 tp ++ sq ++ eext ++ ": " ++ e)], false)
             | .ok _ => (files ++ [successFileResult tp], ok))) := by
  refine ⟨?_, ?_, ?_, ?_⟩
  · simp [evaluateCondition]
  · intro cond hc
    unfold evaluateCondition
    rw [if_neg hc]
    cases h : env.renderString cn cond params <;> simp [Except.map]
  · intro tplSpec tn ext eext files ok tmplw tp h1 h2
    unfold renderSingleTemplateIteration
    rw [h1, h2]
  · intro tplSpec tn ext eext files ok tmplw tp h1 h2
    unfold renderSingleTemplateIteration
    rw [h1, h2]

/-- C2 witness: with an engine that renders the condition to the literal
"skip", the iteration emits no FileResult at all. -/
theorem c2_condition_gate_witness :
    renderSingleTemplateIteration baseEnv c2tpl [] "t" "" "" [] true c2tmplw = ([], true) :=
  (c2_condition_gate baseEnv [] "t").2.2.1 c2tpl "t" "" "" [] true c2tmplw "p" rfl rfl

def c5env : Env := { baseEnv with renderString := fun _ _ _ => .error "boom" }

def c5tpl : TemplateSpec :=
  { relativeSourcePath := "s", relativeTargetPath := "some.txt"
    condition := "", justCopy := false, withItems := [] }

/-- C5 counterexample: when rendering the target-path expression fails,
the emitted failure FileResult records the EMPTY string as its path (Go's
renderString returned "" together with the error), not the literal
unrendered target path "some.txt"; the literal path appears only inside
the error message. -/
theorem c5_claim_counterexample :
    renderSingleTemplateIteration c5env c5tpl [] "t" "" "" [] true c2tmplw
      = ([errorFileResult "" ("error evaluating target path from " ++ sq ++ "some.txt" ++
          sq ++ ": " ++ "boom")], false)
    ∧ (renderSingleTemplateIteration c5env c5tpl [] "t" "" "" [] true c2tmplw).1
        ≠ [errorFileResult c5tpl.relativeTargetPath ("error evaluating target path from " ++
          sq ++ "some.txt" ++ sq ++ ": " ++ "boom")] := by
  exact ⟨rfl, by decide⟩

/-- C5 amended: on a target-path rendering failure the iteration emits
one failure FileResult whose recorded path is the empty string, while
the error message cites the literal unrendered target path; condition
evaluation and body rendering are skipped (the result does not depend on
the condition, the template body, or the writer). -/
theorem c5_path_failure_empty_path (env : Env) (tplSpec : TemplateSpec)
    (params : List (String × Value)) (tn ext eext : String) (files : List FileResult)
    (ok : Bool) (tmplw : TemplateWrapper) (e : String)
    (h : env.renderString (tn ++ "_path" ++ ext) tplSpec.relativeTargetPath params
      = .error e) :
    renderSingleTemplateIteration env tplSpec params tn ext eext files ok tmplw
      = (files ++ [errorFileResult "" ("error evaluating target path from " ++ sq ++
          tplSpec.relativeTargetPath ++ sq ++ eext ++ ": " ++ e)], false) := by
  unfold renderSingleTemplateIteration
  rw [h]

/-- C5 witness: the amended statement at a concrete failing engine. -/
theorem c5_path_failure_empty_path_witness :
    renderSingleTemplateIteration c5env c5tpl [] "t" "" "" [] true c2tmplw
      = ([] ++ [errorFileResult "" ("error evaluating target path from " ++ sq ++
          c5tpl.relativeTargetPath ++ sq ++ "" ++ ": " ++ "boom")], false) :=
  c5_path_failure_empty_path c5env c5tpl [] "t" "" "" [] true c2tmplw "boom" rfl

/-- Every declared variable that survives validation has an entry in the
produced parameter map, computed by the per-variable loop body. -/
theorem validateVars_mem (env : Env) (rspec : RenderSpec) :
    ∀ (l : List (String × VariableSpec)) (m : List (String × Value)),
    validateVars env rspec l = .ok m →
    ∀ n vs, (n, vs) ∈ l →
    ∃ v, (n, v) ∈ m ∧ resolveAndValidateVar env rspec n vs = .ok v := by
  intro l
  induction l with
  | nil => intro m _ n vs hmem; cases hmem
  | cons hd tl ih =>
    intro m h n vs hmem
    obtain ⟨a, b⟩ := hd
    simp only [validateVars] at h
    cases h1 : resolveAndValidateVar env rspec a b with
    | error e => simp only [h1] at h; exact Except.noConfusion h
    | ok v =>
      simp only [h1] at h
      cases h2 : validateVars env rspec tl with
      | error e => simp only [h2] at h; exact Except.noConfusion h
      | ok m' =>
        simp only [h2, Except.ok.injEq] at h
        subst h
        rcases List.mem_cons.mp hmem with heq | htl
        · rw [Prod.mk.injEq] at heq
          obtain ⟨hn, hb⟩ := heq
          subst hn; subst hb
          exact ⟨v, List.mem_cons_self _ _, h1⟩
        · obtain ⟨w, hw, hres⟩ := ih m' h2 n vs htl
          exact ⟨w, List.mem_cons_of_mem _ hw, hres⟩

def c1gspec : GeneratorSpec :=
  { templates := [], vars := [("v", { description := "", defaultValue := none
                                      validationPattern := "b" })] }

def c1rspec : RenderSpec :=
  { generatorName := "g", parameters := [("v", some (Value.str "abc"))] }

/-- C1 counterexample: variable "v" has pattern "b" and resolved value
"abc".  A full regex match of "b" against "abc" fails, so the claim says
the call must fail with a pattern-violation error — but the call
succeeds, because the code uses Go regexp.MatchString, an unanchored
substring search. -/
theorem c1_claim_counterexample :
    constructAndValidateParameterMap baseEnv c1gspec c1rspec = .ok [("v", Value.str "abc")]
    ∧ (parseRegexp "b").map (fun r => rmatch r "abc".toList) = .ok false :=
  ⟨rfl, rfl⟩

/-- C1 amended: for every variable with a non-empty validationPattern the
stringified resolved value must CONTAIN a match of the pattern (Go
regexp.MatchString unanchored substring semantics, not a full match): a
value that passes has `goMatchString = ok true`; a substring non-match
fails the call with the pattern-violation error naming the variable and
the pattern; a malformed pattern fails with the spec-authoring error;
and every variable of a successfully validated generator spec went
through exactly this per-variable check. -/
theorem c1_validation_substring :
    (∀ (env : Env) (rspec : RenderSpec) (n : String) (vs : VariableSpec) (v : Value),
      vs.validationPattern ≠ "" → resolveAndValidateVar env rspec n vs = .ok v →
      goMatchString vs.validationPattern (sprintfV v) = .ok true)
    ∧ (∀ (env : Env) (rspec : RenderSpec) (n : String) (vs : VariableSpec) (v : Value),
      resolveVarValue env rspec n vs = .ok (some v) → vs.validationPattern ≠ "" →
      goMatchString vs.validationPattern (sprintfV v) = .ok false →
      resolveAndValidateVar env rspec n vs
        = .error ("value for parameter " ++ sq ++ n ++ sq ++ " does not match pattern " ++
            vs.validationPattern))
    ∧ (∀ (env : Env) (rspec : RenderSpec) (n : String) (vs : VariableSpec) (v : Value)
        (e : String),
      resolveVarValue env rspec n vs = .ok (some v) → vs.validationPattern ≠ "" →
      goMatchString vs.validationPattern (sprintfV v) = .error e →
      resolveAndValidateVar env rspec n vs
        = .error ("variable declaration " ++ n ++
            " has invalid pattern (this is an error in the generator spec, not the render request): "
            ++ e))
    ∧ (∀ (env : Env) (gspec : GeneratorSpec) (rspec : RenderSpec) m (n : String)
        (vs : VariableSpec),
      constructAndValidateParameterMap env gspec rspec = .ok m → (n, vs) ∈ gspec.vars →
      ∃ v, (n, v) ∈ m ∧ resolveAndValidateVar env rspec n vs = .ok v) := by
  refine ⟨?_, ?_, ?_, ?_⟩
  · intro env rspec n vs v hp h
    unfold resolveAndValidateVar at h
    cases hv : resolveVarValue env rspec n vs with
    | error e => simp only [hv] at h; exact Except.noConfusion h
    | ok o =>
      cases o with
      | none => simp only [hv] at h; exact Except.noConfusion h
      | some w =>
        simp only [hv, if_neg hp] at h
        cases hm : goMatchString vs.validationPattern (sprintfV w) with
        | error e => simp only [hm] at h; exact Except.noConfusion h
        | ok b =>
          cases b with
          | false => simp only [hm] at h; exact Except.noConfusion h
          | true =>
            simp only [hm, Except.ok.injEq] at h
            subst h
            exact hm
  · intro env rspec n vs v hval hp hm
    simp only [resolveAndValidateVar, hval, if_neg hp, hm]
  · intro env rspec n vs v e hval hp hm
    simp only [resolveAndValidateVar, hval, if_neg hp, hm]
  · intro env gspec rspec m n vs h hmem
    exact validateVars_mem env rspec gspec.vars m h n vs hmem

/-- C1 witness: the passing value "abc" under pattern "b" indeed
contains a substring match. -/
theorem c1_validation_substring_witness :
    goMatchString "b" (sprintfV (Value.str "abc")) = .ok true :=
  c1_validation_substring.1 baseEnv c1rspec "v"
    { description := "", defaultValue := none, validationPattern := "b" }
    (Value.str "abc") (by decide) rfl

def c3gspec : GeneratorSpec :=
  { templates := [], vars := [("req", { description := "", defaultValue := none
                                        validationPattern := "" })] }

def c3env : Env := { baseEnv with obtainGeneratorSpec := fun _ => .ok c3gspec }

def c3req : Request :=
  { sourceBaseDir := "s", targetBaseDir := "t", renderSpecFile := "spec.yaml" }

/-- C3 counterexample: the spec declares required variable "req" (no
default); the caller supplies only the unknown key "unknown".  The claim
says the unknown-parameter error is returned regardless — but the code
runs resolve-and-validate first, so the call fails with the
required-parameter error for "req", not with the unknown-parameter
error. -/
theorem c3_claim_counterexample :
    WriteRenderSpecWithValues c3env c3req "gen" [("unknown", some (Value.str "x"))]
      = errorResponseToplevel ("parameter " ++ sq ++ "req" ++ sq ++ " is required but missing")
    ∧ ("parameter " ++ sq ++ "req" ++ sq ++ " is required but missing")
      ≠ ("parameter " ++ sq ++ "unknown" ++ sq ++ " is not allowed according to generator spec") :=
  ⟨rfl, by decide⟩

/-- If some supplied key is not declared, the extraneous-parameter scan
finds such a key. -/
theorem findExtraneous_of_unknown (vars : List (String × VariableSpec)) :
    ∀ (params : ParamMap),
    (∃ kv, kv ∈ params ∧ lookupVar vars kv.1 = none) →
    ∃ k, findExtraneous vars params = some k ∧ lookupVar vars k = none ∧
      ∃ v, (k, v) ∈ params := by
  intro params
  induction params with
  | nil => rintro ⟨kv, hmem, _⟩; cases hmem
  | cons hd tl ih =>
    rintro ⟨kv, hmem, hk⟩
    obtain ⟨k0, v0⟩ := hd
    by_cases h0 : (lookupVar vars k0).isSome
    · have : ∃ kv, kv ∈ tl ∧ lookupVar vars kv.1 = none := by
        rcases List.mem_cons.mp hmem with heq | htl
        · subst heq
          rw [hk] at h0
          exact absurd h0 (by simp)
        · exact ⟨kv, htl, hk⟩
      obtain ⟨k, hfind, hnone, v, hv⟩ := ih this
      refine ⟨k, ?_, hnone, v, List.mem_cons_of_mem _ hv⟩
      simp only [findExtraneous, if_pos h0]
      exact hfind
    · refine ⟨k0, ?_, ?_, v0, List.mem_cons_self _ _⟩
      · simp only [findExtraneous, if_neg h0]
      · exact Option.not_isSome_iff_eq_none.mp h0

/-- C3 amended: the unknown-parameter rejection runs only AFTER
resolve-with-fallback and resolve-and-validate have both succeeded; in
that case any supplied key absent from the spec's variable set fails the
call with the unknown-parameter error naming such a key.  (When
validation fails instead, its error is the one returned — see the
counterexample.) -/
theorem c3_unknown_param_after_validation (env : Env) (rq : Request) (gn : String)
    (params : ParamMap) (gspec : GeneratorSpec) (rspec : RenderSpec)
    (m : List (String × Value))
    (h1 : env.obtainGeneratorSpec gn = .ok gspec)
    (h2 : constructRenderSpecWithValuesOrDefaults env gn gspec params none = .ok rspec)
    (h3 : constructAndValidateParameterMap env gspec rspec = .ok m)
    (h4 : ∃ kv, kv ∈ params ∧ lookupVar gspec.vars kv.1 = none) :
    ∃ k, lookupVar gspec.vars k = none ∧ (∃ v, (k, v) ∈ params) ∧
      WriteRenderSpecWithValues env rq gn params
        = errorResponseToplevel ("parameter " ++ sq ++ k ++ sq ++
            " is not allowed according to generator spec") := by
  obtain ⟨k, hfind, hnone, v, hv⟩ := findExtraneous_of_unknown gspec.vars params h4
  refine ⟨k, hnone, ⟨v, hv⟩, ?_⟩
  unfold WriteRenderSpecWithValues
  simp only [h1, h2, h3, hfind]

def c3wgspec : GeneratorSpec := { templates := [], vars := [] }

def c3wenv : Env := { baseEnv with obtainGeneratorSpec := fun _ => .ok c3wgspec }

/-- C3 witness: with no declared variables (so resolution and validation
trivially succeed) and one unknown supplied key "z", the call fails with
the unknown-parameter error naming "z". -/
theorem c3_unknown_param_after_validation_witness :
    ∃ k, lookupVar c3wgspec.vars k = none ∧
      (∃ v, (k, v) ∈ [("z", some (Value.str "1"))]) ∧
      WriteRenderSpecWithValues c3wenv c3req "gen" [("z", some (Value.str "1"))]
        = errorResponseToplevel ("parameter " ++ sq ++ k ++ sq ++
            " is not allowed according to generator spec") :=
  c3_unknown_param_after_validation c3wenv c3req "gen" [("z", some (Value.str "1"))]
    c3wgspec { generatorName := "gen", parameters := [] } [] rfl rfl rfl
    ⟨("z", some (Value.str "1")), List.mem_cons_self _ _, rfl⟩

def c4gspec : GeneratorSpec :=
  { templates := [{ relativeSourcePath := "s.tmpl", relativeTargetPath := "t.txt"
                    condition := "", justCopy := false, withItems := [] }]
    vars := [] }

def c4env : Env :=
  { baseEnv with
    obtainRenderSpec := fun _ => .ok { generatorName := "g", parameters := [] }
    obtainGeneratorSpec := fun _ => .ok c4gspec
    readFile := fun _ => .error "boom" }

/-- C4 counterexample: the render spec and generator spec load fine and
validation succeeds, but the single template unit fails to load — a
purely file-level failure.  The Response still carries a non-empty
top-level errors list (the generic marker added by errorResponseRender),
contradicting the claim that top-level errors are non-empty only for
failures before file-level work. -/
theorem c4_claim_counterexample :
    Render c4env c3req
      = { success := false
          renderedFiles := [errorFileResult "t.txt" "failed to load template s.tmpl: boom"]
          errors := ["an error occurred during rendering, see individual files"] }
    ∧ (Render c4env c3req).errors ≠ [] :=
  ⟨rfl, by decide⟩

/-- C4 amended: Render's top-level errors list is non-empty in exactly
two situations — a failure before any file-level work (render-spec load,
generator-spec load, parameter resolution/validation), which aborts with
that error alone and zero FileResults; or at least one failed FileResult,
in which case the list holds only the fixed marker string "an error
occurred during rendering, see individual files" while the individual
failures stay in their FileResults. -/
theorem c4_toplevel_errors (env : Env) (rq : Request) :
    (∀ e, env.obtainRenderSpec rq.renderSpecFile = .error e →
      Render env rq = { success := false, renderedFiles := [], errors := [e] })
    ∧ (∀ rspec e, env.obtainRenderSpec rq.renderSpecFile = .ok rspec →
      env.obtainGeneratorSpec rspec.generatorName = .error e →
      Render env rq = { success := false, renderedFiles := [], errors := [e] })
    ∧ (∀ rspec gspec e, env.obtainRenderSpec rq.renderSpecFile = .ok rspec →
      env.obtainGeneratorSpec rspec.generatorName = .ok gspec →
      constructAndValidateParameterMap env gspec rspec = .error e →
      Render env rq = { success := false, renderedFiles := [], errors := [e] })
    ∧ (∀ rspec gspec ps, env.obtainRenderSpec rq.renderSpecFile = .ok rspec →
      env.obtainGeneratorSpec rspec.generatorName = .ok gspec →
      constructAndValidateParameterMap env gspec rspec = .ok ps →
      Render env rq =
        (if (renderAllTemplates env gspec ps).2
         then { success := true, renderedFiles := (renderAllTemplates env gspec ps).1
                errors := [] }
         else { success := false, renderedFiles := (renderAllTemplates env gspec ps).1
                errors := ["an error occurred during rendering, see individual files"] })) := by
  refine ⟨?_, ?_, ?_, ?_⟩
  · intro e h
    unfold Render
    simp only [h]
    rfl
  · intro rspec e h1 h2
    unfold Render
    simp only [h1, h2]
    rfl
  · intro rspec gspec e h1 h2 h3
    unfold Render
    simp only [h1, h2, h3]
    rfl
  · intro rspec gspec ps h1 h2 h3
    unfold Render
    simp only [h1, h2, h3]
    cases hr : renderAllTemplates env gspec ps with
    | mk files ok =>
      cases ok <;> simp [successResponse, errorResponseRender]

/-- C4 witness: a failing render-spec load yields exactly that error at
top level and zero FileResults. -/
theorem c4_toplevel_errors_witness :
    Render baseEnv c3req
      = { success := false, renderedFiles := [], errors := ["no render spec"] } :=
  (c4_toplevel_errors baseEnv c3req).1 "no render spec" rfl

/-- An engine whose rendering reveals whether `item` is visible: the
rendered text is the template text followed by the stringified `item`
entry of the parameter map (empty if absent) — the behaviour of a
template that appends a reference to `.item`. -/
def c6env : Env :=
  { baseEnv with
    renderString := fun _ contents params =>
      .ok (contents ++ (match lookupV params "item" with
                        | some v => sprintfV v
                        | none => "")) }

def c6u1 : TemplateSpec :=
  { relativeSourcePath := "a", relativeTargetPath := "p1-"
    condition := "", justCopy := false, withItems := [Value.str "X"] }

def c6u2 : TemplateSpec :=
  { relativeSourcePath := "b", relativeTargetPath := "p2-"
    condition := "", justCopy := false, withItems := [] }

def c6gspec : GeneratorSpec := { templates := [c6u1, c6u2], vars := [] }

/-- C6 counterexample: unit 1 has withItems ["X"], unit 2 has empty
withItems.  If unit 2 were evaluated with no `item` key its target path
would render to "p2-", but it renders to "p2-X": the `item` value stored
by unit 1's iteration is still visible, because the Go parameter map is
shared and mutated in place across units. -/
theorem c6_claim_counterexample :
    renderAllTemplates c6env c6gspec []
      = ([successFileResult "p1-X", successFileResult "p2-X"], true)
    ∧ "p2-X" ≠ "p2-" :=
  ⟨rfl, by decide⟩

/-- C6 amended: a unit with empty withItems evaluates target path,
condition and body exactly once, against the parameter map exactly as the
unit received it — which still contains any `item` entry stored by an
earlier with-items unit of the same Render call — and returns that map
unchanged. -/
theorem c6_no_items_single_eval (env : Env) (tplSpec : TemplateSpec)
    (params : List (String × Value)) (h : tplSpec.withItems = []) :
    (renderSingleTemplate env tplSpec params).1 = params
    ∧ (∀ contents, env.readFile tplSpec.relativeSourcePath = .ok contents →
        env.parseTemplate
          { justCopy := tplSpec.justCopy, contents := contents
            templateName := tplSpec.relativeSourcePath.replace "/" "_"
            relativeSourcePath := tplSpec.relativeSourcePath } = .ok () →
        (renderSingleTemplate env tplSpec params).2
          = renderSingleTemplateIteration env tplSpec params
              (tplSpec.relativeSourcePath.replace "/" "_") "" "" [] true
              { justCopy := tplSpec.justCopy, contents := contents
                templateName := tplSpec.relativeSourcePath.replace "/" "_"
                relativeSourcePath := tplSpec.relativeSourcePath }) := by
  constructor
  · unfold renderSingleTemplate
    cases hr : env.readFile tplSpec.relativeSourcePath with
    | error e => rfl
    | ok contents =>
      cases hp : env.parseTemplate
          { justCopy := tplSpec.justCopy, contents := contents
            templateName := tplSpec.relativeSourcePath.replace "/" "_"
            relativeSourcePath := tplSpec.relativeSourcePath } with
      | error e => simp only [hp]
      | ok u =>
        simp only [hp, h, List.length_nil, lt_irrefl, if_false]
  · intro contents hr hp
    unfold renderSingleTemplate
    simp only [hr, hp, h, List.length_nil, lt_irrefl, if_false]

/-- C6 witness: the amended statement at unit 2 of the counterexample
generator, entered with the stale parameter map left by unit 1. -/
theorem c6_no_items_single_eval_witness :
    (renderSingleTemplate c6env c6u2 [("item", Value.str "X")]).1
      = [("item", Value.str "X")]
    ∧ (renderSingleTemplate c6env c6u2 [("item", Value.str "X")]).2
      = renderSingleTemplateIteration c6env c6u2 [("item", Value.str "X")] "b" "" "" [] true
          { justCopy := false, contents := "", templateName := "b"
            relativeSourcePath := "b" } :=
  ⟨(c6_no_items_single_eval c6env c6u2 [("item", Value.str "X")] rfl).1,
   (c6_no_items_single_eval c6env c6u2 [("item", Value.str "X")] rfl).2 "" rfl rfl⟩

/-- The code's per-variable fallback branch order (nil default first,
then string type-assert, then structured) computes the same value as the
specification's branch order (supplied, string default, structured
default, nilDefault). -/
theorem fallbackVarValue_eq_spec (env : Env) (parameters : ParamMap)
    (nilDefault : Option Value) (k : String) (vs : VariableSpec) :
    fallbackVarValue env parameters nilDefault k vs
      = specResolveWithFallbackVar env parameters nilDefault k vs := by
  unfold fallbackVarValue specResolveWithFallbackVar
  cases goGet parameters k with
  | some v => rfl
  | none =>
    cases hd : vs.defaultValue with
    | none => rfl
    | some dv => cases dv <;> rfl

/-- The two variable-list folds agree. -/
theorem fallbackParams_eq_spec (env : Env) (parameters : ParamMap)
    (nilDefault : Option Value) :
    ∀ l, fallbackParams env parameters nilDefault l
      = specResolveVars env parameters nilDefault l := by
  intro l
  induction l with
  | nil => rfl
  | cons hd tl ih =>
    obtain ⟨k, vs⟩ := hd
    simp only [fallbackParams, specResolveVars, fallbackVarValue_eq_spec, ih]

/-- C7: constructRenderSpecWithValuesOrDefaults computes, for every
declared variable: the supplied value verbatim when present (non-nil);
else the rendered string default (a rendering or parse failure aborts
the whole resolve with the spec-authoring error and no partial result,
by the Except structure); else a structured non-string default verbatim
and unrendered; else the caller-chosen nilDefault — i.e. it coincides
with the resolve-with-fallback function written from the specification
text. -/
theorem c7_fallback_refines_spec (env : Env) (generatorName : String)
    (genSpec : GeneratorSpec) (parameters : ParamMap) (nilDefault : Option Value) :
    constructRenderSpecWithValuesOrDefaults env generatorName genSpec parameters nilDefault
      = (specResolveVars env parameters nilDefault genSpec.vars).map
          (fun ps => { generatorName := generatorName, parameters := ps }) := by
  unfold constructRenderSpecWithValuesOrDefaults
  rw [fallbackParams_eq_spec]

/-- The fallback computation never reads the validation pattern. -/
theorem fallbackVarValue_pattern_irrel (env : Env) (parameters : ParamMap)
    (nilDefault : Option Value) (k : String) (vs : VariableSpec) (pat : String) :
    fallbackVarValue env parameters nilDefault k
        { vs with validationPattern := pat }
      = fallbackVarValue env parameters nilDefault k vs := by
  unfold fallbackVarValue
  cases goGet parameters k with
  | some v => rfl
  | none => cases hd : vs.defaultValue with
    | none => rfl
    | some dv => cases dv <;> rfl

/-- Blanking every validation pattern leaves the fallback fold
unchanged. -/
theorem fallbackParams_erase (env : Env) (parameters : ParamMap)
    (nilDefault : Option Value) :
    ∀ l : List (String × VariableSpec),
    fallbackParams env parameters nilDefault
        (l.map (fun kv => (kv.1, { kv.2 with validationPattern := "" })))
      = fallbackParams env parameters nilDefault l := by
  intro l
  induction l with
  | nil => rfl
  | cons hd tl ih =>
    obtain ⟨k, vs⟩ := hd
    simp only [List.map_cons, fallbackParams, fallbackVarValue_pattern_irrel, ih]

/-- A variable with no default and no supplied value resolves to the
nilDefault entry in the fold's output. -/
theorem fallbackParams_none_mem (env : Env) (nilDefault : Option Value) :
    ∀ (l : List (String × VariableSpec)) (m : ParamMap),
    fallbackParams env [] nilDefault l = .ok m →
    ∀ k vs, (k, vs) ∈ l → vs.defaultValue = none → (k, nilDefault) ∈ m := by
  intro l
  induction l with
  | nil => intro m _ k vs hmem; cases hmem
  | cons hd tl ih =>
    intro m h k vs hmem hdv
    obtain ⟨a, b⟩ := hd
    simp only [fallbackParams] at h
    cases h1 : fallbackVarValue env [] nilDefault a b with
    | error e => simp only [h1] at h; exact Except.noConfusion h
    | ok v =>
      simp only [h1] at h
      cases h2 : fallbackParams env [] nilDefault tl with
      | error e => simp only [h2] at h; exact Except.noConfusion h
      | ok m' =>
        simp only [h2, Except.ok.injEq] at h
        subst h
        rcases List.mem_cons.mp hmem with heq | htl
        · rw [Prod.mk.injEq] at heq
          obtain ⟨hk, hb⟩ := heq
          subst hk; subst hb
          have : fallbackVarValue env [] nilDefault k vs = .ok nilDefault := by
            unfold fallbackVarValue
            simp [goGet, lookupP, hdv]
          rw [this] at h1
          injection h1 with hv
          subst hv
          exact List.mem_cons_self _ _
        · exact List.mem_cons_of_mem _ (ih m' h2 k vs htl hdv)

/-- The default-rendering helper reads only the engine's renderString. -/
theorem renderStringDefaultFromTemplate_env_irrel (env1 env2 : Env)
    (h : env1.renderString = env2.renderString) (n d : String) :
    renderStringDefaultFromTemplate env1 n d = renderStringDefaultFromTemplate env2 n d := by
  unfold renderStringDefaultFromTemplate
  rw [h]

/-- The fallback fold reads only the engine's renderString. -/
theorem fallbackParams_env_irrel (env1 env2 : Env) (parameters : ParamMap)
    (nilDefault : Option Value) (h : env1.renderString = env2.renderString) :
    ∀ l, fallbackParams env1 parameters nilDefault l
      = fallbackParams env2 parameters nilDefault l := by
  intro l
  induction l with
  | nil => rfl
  | cons hd tl ih =>
    obtain ⟨k, vs⟩ := hd
    have hv : fallbackVarValue env1 parameters nilDefault k vs
        = fallbackVarValue env2 parameters nilDefault k vs := by
      unfold fallbackVarValue
      cases goGet parameters k with
      | some v => rfl
      | none =>
        cases vs.defaultValue with
        | none => rfl
        | some dv =>
          cases dv with
          | str ds =>
            show (renderStringDefaultFromTemplate env1 k ds).map some
              = (renderStringDefaultFromTemplate env2 k ds).map some
            rw [renderStringDefaultFromTemplate_env_irrel env1 env2 h]
          | int n => rfl
          | bool b => rfl
          | list l2 => rfl
          | vmap m2 => rfl
    simp only [fallbackParams, hv, ih]

/-- C8: write-defaults mode never applies validation patterns — its
result is invariant under blanking every pattern in the generator spec —
and every variable with neither default nor supplied value resolves to
the empty string in the produced RenderSpec; given the spec loads and
resolution succeeds, the response is decided by the write alone (no
required-parameter or pattern error can occur). -/
theorem c8_defaults_skip_validation :
    (∀ (env : Env) (rq : Request) (gn : String),
      WriteRenderSpecWithDefaults
          { env with obtainGeneratorSpec :=
              fun n => (env.obtainGeneratorSpec n).map erasePatterns } rq gn
        = WriteRenderSpecWithDefaults env rq gn)
    ∧ (∀ (env : Env) (rq : Request) (gn : String) (gspec : GeneratorSpec)
        (rspec : RenderSpec),
      env.obtainGeneratorSpec gn = .ok gspec →
      constructRenderSpecWithValuesOrDefaults env gn gspec [] (some (Value.str ""))
        = .ok rspec →
      (∀ k vs, (k, vs) ∈ gspec.vars → vs.defaultValue = none →
        (k, some (Value.str "")) ∈ rspec.parameters)
      ∧ WriteRenderSpecWithDefaults env rq gn
          = (match env.writeRenderSpec rspec rq.renderSpecFile with
             | .error e => errorResponseToplevel e
             | .ok f => successResponse [successFileResult f])) := by
  constructor
  · intro env rq gn
    have hcrs : ∀ env' : Env, env'.renderString = env.renderString →
        ∀ gspec, constructRenderSpecWithValuesOrDefaults env' gn (erasePatterns gspec) []
            (some (Value.str ""))
          = constructRenderSpecWithValuesOrDefaults env gn gspec [] (some (Value.str "")) := by
      intro env' hrs gspec
      unfold constructRenderSpecWithValuesOrDefaults
      rw [fallbackParams_env_irrel env' env [] (some (Value.str "")) hrs]
      rw [show (erasePatterns gspec).vars
            = gspec.vars.map (fun kv => (kv.1, { kv.2 with validationPattern := "" }))
          from rfl]
      rw [fallbackParams_erase]
    set env2 : Env :=
      { env with obtainGeneratorSpec :=
          fun n => (env.obtainGeneratorSpec n).map erasePatterns } with henv2
    have hog : env2.obtainGeneratorSpec gn = (env.obtainGeneratorSpec gn).map erasePatterns :=
      rfl
    unfold WriteRenderSpecWithDefaults
    cases h : env.obtainGeneratorSpec gn with
    | error e =>
      have h' : env2.obtainGeneratorSpec gn = .error e := by rw [hog, h]; rfl
      simp only [h, h', Except.map]
    | ok gspec =>
      have h' : env2.obtainGeneratorSpec gn = .ok (erasePatterns gspec) := by rw [hog, h]; rfl
      simp only [h, h', Except.map]
      rw [hcrs env2 rfl gspec]
  · intro env rq gn gspec rspec h1 h2
    constructor
    · intro k vs hmem hdv
      have h2' : fallbackParams env [] (some (Value.str "")) gspec.vars
          = .ok rspec.parameters := by
        unfold constructRenderSpecWithValuesOrDefaults at h2
        cases hf : fallbackParams env [] (some (Value.str "")) gspec.vars with
        | error e => rw [hf] at h2; exact Except.noConfusion h2
        | ok ps =>
          rw [hf] at h2
          simp only [Except.map, Except.ok.injEq] at h2
          rw [← h2]
      exact fallbackParams_none_mem env (some (Value.str "")) gspec.vars rspec.parameters
        h2' k vs hmem hdv
    · unfold WriteRenderSpecWithDefaults
      simp only [h1, h2]

def c8gspec : GeneratorSpec :=
  { templates := []
    vars := [("a", { description := "", defaultValue := some (Value.str "zz")
                     validationPattern := "0" }),
             ("b", { description := "", defaultValue := none, validationPattern := "" })] }

def c8env : Env := { baseEnv with obtainGeneratorSpec := fun _ => .ok c8gspec }

def c8rspec : RenderSpec :=
  { generatorName := "g"
    parameters := [("a", some (Value.str "zz")), ("b", some (Value.str ""))] }

/-- C8 witness: variable "a" has default "zz" violating its own pattern
"0" and variable "b" has no default; write-defaults mode still succeeds,
resolving "b" to the empty string. -/
theorem c8_defaults_skip_validation_witness :
    ("b", some (Value.str "")) ∈ c8rspec.parameters
    ∧ WriteRenderSpecWithDefaults c8env c3req "g"
        = (match c8env.writeRenderSpec c8rspec c3req.renderSpecFile with
           | .error e => errorResponseToplevel e
           | .ok f => successResponse [successFileResult f]) :=
  ⟨(c8_defaults_skip_validation.2 c8env c3req "g" c8gspec c8rspec rfl rfl).1 "b"
      { description := "", defaultValue := none, validationPattern := "" }
      (List.mem_cons_of_mem _ (List.mem_cons_self _ _)) rfl,
   (c8_defaults_skip_validation.2 c8env c3req "g" c8gspec c8rspec rfl rfl).2⟩

/-- Storing under the same key twice keeps only the last value (Go map
semantics of the repeated `parameters["item"] = item`). -/
theorem setParam_setParam (k : String) (a b : Value) :
    ∀ p : List (String × Value), setParam (setParam p k a) k b = setParam p k b := by
  intro p
  induction p with
  | nil => simp [setParam]
  | cons hd tl ih =>
    obtain ⟨k', v'⟩ := hd
    by_cases hk : k' = k
    · simp [setParam, hk]
    · simp [setParam, hk, ih]

/-- With an empty condition, one iteration appends exactly one
FileResult, the one described by iterFR. -/
theorem iteration_empty_condition (env : Env) (tplSpec : TemplateSpec)
    (params : List (String × Value)) (tn ext eext : String) (files : List FileResult)
    (ok : Bool) (tmplw : TemplateWrapper) (hc : tplSpec.condition = "") :
    renderSingleTemplateIteration env tplSpec params tn ext eext files ok tmplw
      = (files ++ [iterFR env tplSpec tmplw tn ext eext params],
         ok && (iterFR env tplSpec tmplw tn ext eext params).success) := by
  unfold renderSingleTemplateIteration iterFR
  cases hp : env.renderString (tn ++ "_path" ++ ext) tplSpec.relativeTargetPath params with
  | error e => simp [errorFileResult]
  | ok tp =>
    have hcond : evaluateCondition env tplSpec.condition params
        (tn ++ "_condition" ++ ext) = .ok true := by
      rw [hc]; rfl
    simp only [hcond]
    cases hw : renderAndWriteFile env params tmplw tn tp with
    | error e => simp [errorFileResult]
    | ok u => simp [successFileResult]

/-- The with-items loop, on an empty condition, appends one FileResult
per item, in item order, each computed against the map with that item
stored under "item". -/
theorem withItemsLoop_files (env : Env) (tplSpec : TemplateSpec) (tmplw : TemplateWrapper)
    (tn : String) (hc : tplSpec.condition = "") :
    ∀ (items : List Value) (counter : Nat) (params : List (String × Value))
      (files : List FileResult) (ok : Bool),
    (withItemsLoop env tplSpec tmplw tn counter items params files ok).2.1
      = files ++ (items.enumFrom (counter + 1)).map
          (fun p => iterFR env tplSpec tmplw tn ("_" ++ Nat.repr p.1)
            (" for item #" ++ Nat.repr p.1) (setParam params "item" p.2)) := by
  intro items
  induction items with
  | nil => intro counter params files ok; simp [withItemsLoop]
  | cons x rest ih =>
    intro counter params files ok
    rw [withItemsLoop]
    rw [iteration_empty_condition env tplSpec _ tn _ _ files ok tmplw hc]
    rw [ih]
    have hset : ∀ y : Value, setParam (setParam params "item" x) "item" y
        = setParam params "item" y := fun y => setParam_setParam "item" x y params
    simp only [hset]
    rw [show (x :: rest).enumFrom (counter + 1)
          = (counter + 1, x) :: rest.enumFrom (counter + 2) from rfl]
    simp [List.append_assoc]

/-- C9: a template unit whose source loads and parses, whose withItems
has N ≥ 1 entries and whose condition is empty emits exactly N
FileResults, one per item in item order, each iteration evaluated with
the current item stored in the parameter set under the reserved key
"item" (and named "_i" / " for item #i" with the 1-based index in
diagnostics). -/
theorem c9_with_items_one_result_per_item (env : Env) (tplSpec : TemplateSpec)
    (params : List (String × Value)) (contents : String)
    (hc : tplSpec.condition = "")
    (hr : env.readFile tplSpec.relativeSourcePath = .ok contents)
    (hp : env.parseTemplate
      { justCopy := tplSpec.justCopy, contents := contents
        templateName := tplSpec.relativeSourcePath.replace "/" "_"
        relativeSourcePath := tplSpec.relativeSourcePath } = .ok ())
    (hne : tplSpec.withItems ≠ []) :
    (renderSingleTemplate env tplSpec params).2.1
      = (tplSpec.withItems.enumFrom 1).map
          (fun p => iterFR env tplSpec
            { justCopy := tplSpec.justCopy, contents := contents
              templateName := tplSpec.relativeSourcePath.replace "/" "_"
              relativeSourcePath := tplSpec.relativeSourcePath }
            (tplSpec.relativeSourcePath.replace "/" "_")
            ("_" ++ Nat.repr p.1) (" for item #" ++ Nat.repr p.1)
            (setParam params "item" p.2))
    ∧ (renderSingleTemplate env tplSpec params).2.1.length
        = tplSpec.withItems.length := by
  have hlen : 0 < tplSpec.withItems.length := List.length_pos.mpr hne
  have hmain : (renderSingleTemplate env tplSpec params).2.1
      = (tplSpec.withItems.enumFrom 1).map
          (fun p => iterFR env tplSpec
            { justCopy := tplSpec.justCopy, contents := contents
              templateName := tplSpec.relativeSourcePath.replace "/" "_"
              relativeSourcePath := tplSpec.relativeSourcePath }
            (tplSpec.relativeSourcePath.replace "/" "_")
            ("_" ++ Nat.repr p.1) (" for item #" ++ Nat.repr p.1)
            (setParam params "item" p.2)) := by
    unfold renderSingleTemplate
    simp only [hr, hp, if_pos hlen]
    rw [withItemsLoop_files env tplSpec _ _ hc tplSpec.withItems 0 params [] true]
    simp
  refine ⟨hmain, ?_⟩
  rw [hmain]
  rw [List.length_map]
  rw [List.enumFrom_length]

def c9tpl : TemplateSpec :=
  { relativeSourcePath := "s", relativeTargetPath := "p"
    condition := "", justCopy := false
    withItems := [Value.str "A", Value.str "B"] }

/-- C9 witness: two items give exactly two FileResults in item order. -/
theorem c9_with_items_one_result_per_item_witness :
    (renderSingleTemplate baseEnv c9tpl []).2.1
      = (c9tpl.withItems.enumFrom 1).map
          (fun p => iterFR baseEnv c9tpl
            { justCopy := false, contents := "", templateName := "s"
              relativeSourcePath := "s" }
            "s" ("_" ++ Nat.repr p.1) (" for item #" ++ Nat.repr p.1)
            (setParam [] "item" p.2))
    ∧ (renderSingleTemplate baseEnv c9tpl []).2.1.length = c9tpl.withItems.length :=
  c9_with_items_one_result_per_item baseEnv c9tpl [] "" rfl rfl rfl
    (List.cons_ne_nil _ _)

/-- C10: whenever WriteRenderSpecWithDefaults or WriteRenderSpecWithValues
reports success, the Response is exactly: success flag true, top-level
errors empty, and one single successful FileResult whose relative path is
the resolved path returned by the render-spec write, with no errors
attached. -/
theorem c10_write_success_shape :
    (∀ (env : Env) (rq : Request) (gn : String),
      (WriteRenderSpecWithDefaults env rq gn).success = true →
      ∃ gspec rspec f, env.obtainGeneratorSpec gn = .ok gspec
        ∧ constructRenderSpecWithValuesOrDefaults env gn gspec [] (some (Value.str ""))
            = .ok rspec
        ∧ env.writeRenderSpec rspec rq.renderSpecFile = .ok f
        ∧ WriteRenderSpecWithDefaults env rq gn
            = { success := true
                renderedFiles := [{ success := true, relativeFilePath := f, errors := [] }]
                errors := [] })
    ∧ (∀ (env : Env) (rq : Request) (gn : String) (params : ParamMap),
      (WriteRenderSpecWithValues env rq gn params).success = true →
      ∃ gspec rspec m f, env.obtainGeneratorSpec gn = .ok gspec
        ∧ constructRenderSpecWithValuesOrDefaults env gn gspec params none = .ok rspec
        ∧ constructAndValidateParameterMap env gspec rspec = .ok m
        ∧ findExtraneous gspec.vars params = none
        ∧ env.writeRenderSpec rspec rq.renderSpecFile = .ok f
        ∧ WriteRenderSpecWithValues env rq gn params
            = { success := true
                renderedFiles := [{ success := true, relativeFilePath := f, errors := [] }]
                errors := [] }) := by
  constructor
  · intro env rq gn h
    unfold WriteRenderSpecWithDefaults at h
    cases h1 : env.obtainGeneratorSpec gn with
    | error e => simp [h1, errorResponseToplevel] at h
    | ok gspec =>
      simp only [h1] at h
      cases h2 : constructRenderSpecWithValuesOrDefaults env gn gspec []
          (some (Value.str "")) with
      | error e => simp [h2, errorResponseToplevel] at h
      | ok rspec =>
        simp only [h2] at h
        cases h3 : env.writeRenderSpec rspec rq.renderSpecFile with
        | error e => simp [h3, errorResponseToplevel] at h
        | ok f =>
          refine ⟨gspec, rspec, f, rfl, h2, h3, ?_⟩
          unfold WriteRenderSpecWithDefaults
          simp only [h1, h2, h3]
          rfl
  · intro env rq gn params h
    unfold WriteRenderSpecWithValues at h
    cases h1 : env.obtainGeneratorSpec gn with
    | error e => simp [h1, errorResponseToplevel] at h
    | ok gspec =>
      simp only [h1] at h
      cases h2 : constructRenderSpecWithValuesOrDefaults env gn gspec params none with
      | error e => simp [h2, errorResponseToplevel] at h
      | ok rspec =>
        simp only [h2] at h
        cases h3 : constructAndValidateParameterMap env gspec rspec with
        | error e => simp [h3, errorResponseToplevel] at h
        | ok m =>
          simp only [h3] at h
          cases h4 : findExtraneous gspec.vars params with
          | some k => simp [h4, errorResponseToplevel] at h
          | none =>
            simp only [h4] at h
            cases h5 : env.writeRenderSpec rspec rq.renderSpecFile with
            | error e => simp [h5, errorResponseToplevel] at h
            | ok f =>
              refine ⟨gspec, rspec, m, f, rfl, h2, h3, h4, h5, ?_⟩
              unfold WriteRenderSpecWithValues
              simp only [h1, h2, h3, h4, h5]
              rfl

def c10gspec : GeneratorSpec := { templates := [], vars := [] }

def c10env : Env := { baseEnv with obtainGeneratorSpec := fun _ => .ok c10gspec }

/-- C10 witness: both entry points, on a spec with no variables, succeed
with exactly one successful FileResult named by the written render-spec
path and no errors anywhere. -/
theorem c10_write_success_shape_witness :
    (∃ gspec rspec f, c10env.obtainGeneratorSpec "g" = .ok gspec
      ∧ constructRenderSpecWithValuesOrDefaults c10env "g" gspec [] (some (Value.str ""))
          = .ok rspec
      ∧ c10env.writeRenderSpec rspec c3req.renderSpecFile = .ok f
      ∧ WriteRenderSpecWithDefaults c10env c3req "g"
          = { success := true
              renderedFiles := [{ success := true, relativeFilePath := f, errors := [] }]
              errors := [] })
    ∧ (∃ gspec rspec m f, c10env.obtainGeneratorSpec "g" = .ok gspec
      ∧ constructRenderSpecWithValuesOrDefaults c10env "g" gspec [] none = .ok rspec
      ∧ constructAndValidateParameterMap c10env gspec rspec = .ok m
      ∧ findExtraneous gspec.vars [] = none
      ∧ c10env.writeRenderSpec rspec c3req.renderSpecFile = .ok f
      ∧ WriteRenderSpecWithValues c10env c3req "g" []
          = { success := true
              renderedFiles := [{ success := true, relativeFilePath := f, errors := [] }]
              errors := [] }) :=
  ⟨c10_write_success_shape.1 c10env c3req "g" rfl,
   c10_write_success_shape.2 c10env c3req "g" [] rfl⟩

end GeneratorLib
